/-
Verification of the Qokx real-time execution and risk-control pipeline.

Shallow embedding of the core components:
  * Position ledger        (src/utils/position_manager.py)
  * Order state engine     (src/execution/order_execution_engine.py)
  * Order manager          (src/execution/order_manager.py)
  * Execution engine       (src/execution/execution_engine.py)
  * Realtime risk manager  (src/risk/realtime_risk_manager.py)
  * Execution bridge       (src/trading/strategy_execution_bridge.py)

Numeric convention: the Python sources compute with `Decimal` (position
ledger, order state engine) and `float` (order manager, risk manager,
bridge).  Both are embedded as `ℚ`: every reachable computation in the
claims below is plain field arithmetic on decimal literals, where `Decimal`
and IEEE doubles agree with `ℚ` exactly.  The single non-rational numeric
primitive used by the risk manager (numpy square root, feeding volatility,
5-day VaR and correlation coefficients) is passed in as an explicit
function parameter `sqrtQ : ℚ → ℚ`.
-/
import Mathlib

namespace Qokx

/-! ## Position ledger (src/utils/position_manager.py) -/

/-- `PositionSide` enum. -/
inductive PositionSide where
  | long
  | short
deriving DecidableEq, Repr

/-- `PositionStatus` enum (`OPEN`, `CLOSED`, `PARTIALLY_CLOSED`);
`opened` stands for the source's `OPEN` (a Lean keyword). -/
inductive PositionStatus where
  | opened
  | closed
  | partiallyClosed
deriving DecidableEq, Repr

/-- The `Position` dataclass, restricted to the numeric fields the
operations read and write. -/
structure Position where
  side : PositionSide
  size : ℚ
  entryPrice : ℚ
  currentPrice : ℚ
  unrealizedPnl : ℚ
  realizedPnl : ℚ
  status : PositionStatus
deriving DecidableEq, Repr

/-- `Position._calculate_unrealized_pnl`, as a pure function of the
position: long: (current - entry) * size; short: (entry - current) * size. -/
def Position.calcUnrealizedPnl (p : Position) : ℚ :=
  match p.side with
  | .long => (p.currentPrice - p.entryPrice) * p.size
  | .short => (p.entryPrice - p.currentPrice) * p.size

/-- Position construction (`__post_init__` runs `_calculate_unrealized_pnl`
on the fresh object). -/
def Position.mk0 (side : PositionSide) (size entryPrice currentPrice : ℚ) : Position :=
  let base : Position :=
    { side := side, size := size, entryPrice := entryPrice, currentPrice := currentPrice
      unrealizedPnl := 0, realizedPnl := 0, status := .opened }
  { base with unrealizedPnl := base.calcUnrealizedPnl }

/-- `Position.update_price`: store the new price and recompute the
unrealized PnL. -/
def Position.updatePrice (p : Position) (newPrice : ℚ) : Position :=
  let q := { p with currentPrice := newPrice }
  { q with unrealizedPnl := q.calcUnrealizedPnl }

/-- `Position.close_position`: realize the PnL of the closed portion,
shrink the size, and update the status.  Exactly as in the source, the
stored `unrealized_pnl` is NOT recomputed here. -/
def Position.closePosition (p : Position) (closePrice : ℚ) (closeSize : Option ℚ) : Position :=
  let cs := closeSize.getD p.size
  let realized : ℚ :=
    match p.side with
    | .long => (closePrice - p.entryPrice) * cs
    | .short => (p.entryPrice - closePrice) * cs
  let newSize := p.size - cs
  { p with realizedPnl := p.realizedPnl + realized
           size := newSize
           status := if newSize ≤ 0 then .closed else .partiallyClosed }

/-! ## Order state engine (src/execution/order_execution_engine.py) -/

/-- `OrderStatus` enum of the order state engine. -/
inductive OrderStatusE where
  | pending
  | submitted
  | partiallyFilled
  | filled
  | cancelled
  | rejected
  | expired
deriving DecidableEq, Repr

/-- The engine's `Order` dataclass, restricted to the fields the claims
read: requested quantity, status, filled quantity, average price,
accumulated commission. -/
structure OrderE where
  quantity : ℚ
  status : OrderStatusE := .pending
  filledQuantity : ℚ := 0
  averagePrice : Option ℚ := none
  commission : ℚ := 0
deriving DecidableEq, Repr

/-- `Order.is_active`: pending, submitted or partially filled. -/
def OrderE.isActive (o : OrderE) : Bool :=
  match o.status with
  | .pending => true
  | .submitted => true
  | .partiallyFilled => true
  | _ => false

/-- `Order.update_status(status, **kwargs)`: the status is stored and each
keyword argument overwrites the named field, with no validation.  The two
keyword arguments relevant here are `filled_quantity` and `average_price`
(`none` = keyword absent). -/
def OrderE.updateStatus (o : OrderE) (status : OrderStatusE)
    (filledQuantity : Option ℚ := none) (averagePrice : Option ℚ := none) : OrderE :=
  { o with status := status
           filledQuantity := filledQuantity.getD o.filledQuantity
           averagePrice := match averagePrice with
                           | some v => some v
                           | none => o.averagePrice }

/-- The engine's order book: order id → order. -/
abbrev OrderEngine := List (String × OrderE)

/-- `OrderExecutionEngine.get_order` (dict lookup). -/
def OrderEngine.getOrder (e : OrderEngine) (orderId : String) : Option OrderE :=
  (e.find? (fun kv => kv.1 = orderId)).map (·.2)

/-- Replace the stored order under `orderId`. -/
def OrderEngine.setOrder (e : OrderEngine) (orderId : String) (o : OrderE) : OrderEngine :=
  e.map (fun kv => if kv.1 = orderId then (kv.1, o) else kv)

/-- `OrderExecutionEngine.cancel_order`: succeeds (and marks the order
cancelled) only when the order exists and is active; otherwise reports
failure and leaves the book unchanged. -/
def OrderEngine.cancelOrder (e : OrderEngine) (orderId : String) : Bool × OrderEngine :=
  match e.getOrder orderId with
  | some o =>
      if o.isActive then (true, e.setOrder orderId (o.updateStatus .cancelled))
      else (false, e)
  | none => (false, e)

/-- Modelled from the spec: the `Submit/Fill` operation of the Order State
Engine is absent from src (the engine only exposes the generic
`update_order` entry point, and no caller in src computes fill
accumulation).  Per the spec it applies a fill: filled size accumulates,
the average price becomes the volume-weighted mean of all fills, the fee
accumulates, and the status becomes Filled when `filled_size ==
requested_size`, else PartiallyFilled. -/
def OrderE.applyFill (o : OrderE) (fillSize fillPrice fee : ℚ) : OrderE :=
  let newFilled := o.filledQuantity + fillSize
  let oldAvg := o.averagePrice.getD 0
  let newAvg := (o.filledQuantity * oldAvg + fillSize * fillPrice) / newFilled
  { o with filledQuantity := newFilled
           averagePrice := some newAvg
           commission := o.commission + fee
           status := if newFilled = o.quantity then .filled else .partiallyFilled }

/-! ## Order manager (src/execution/order_manager.py) -/

/-- `OrderType` enum of the order manager. -/
inductive OMType where
  | market
  | limit
  | stop
  | takeProfit
  | stopLimit
deriving DecidableEq, Repr

/-- `OrderSide` enum of the order manager. -/
inductive OMSide where
  | buy
  | sell
deriving DecidableEq, Repr

/-- `OrderStatus` enum of the order manager (`opened` stands for the
source's `OPEN`, a Lean keyword). -/
inductive OMStatus where
  | pending
  | opened
  | filled
  | partiallyFilled
  | cancelled
  | rejected
deriving DecidableEq, Repr

/-- The order manager's `Order` dataclass (numeric and status fields). -/
structure OMOrder where
  orderType : OMType
  side : OMSide
  quantity : ℚ
  price : Option ℚ := none
  stopPrice : Option ℚ := none
  takeProfitPrice : Option ℚ := none
  status : OMStatus := .pending
  filledQuantity : ℚ := 0
  avgFillPrice : ℚ := 0
  commission : ℚ := 0
  slippage : ℚ := 0
deriving DecidableEq, Repr

/-- `OrderManager.create_market_order` (the stored order). -/
def createMarketOrder (side : OMSide) (quantity : ℚ) : OMOrder :=
  { orderType := .market, side := side, quantity := quantity }

/-- `OrderManager.create_limit_order` (the stored order). -/
def createLimitOrder (side : OMSide) (quantity price : ℚ) : OMOrder :=
  { orderType := .limit, side := side, quantity := quantity, price := some price }

/-- `OrderManager.execute_market_order`, effect on the order: the fill
price is the quoted price moved against the trader's side by
`price * slippage_rate`, the commission is `quantity * fill_price *
commission_rate`, and the order is fully filled. -/
def executeMarketOrder (o : OMOrder) (currentPrice commissionRate slippageRate : ℚ) : OMOrder :=
  let slippageAmount := currentPrice * slippageRate
  let fillPrice :=
    if o.side = .buy then currentPrice + slippageAmount else currentPrice - slippageAmount
  let commission := o.quantity * fillPrice * commissionRate
  { o with status := .filled
           filledQuantity := o.quantity
           avgFillPrice := fillPrice
           commission := commission
           slippage := slippageAmount }

/-- One order's step of `OrderManager.check_limit_orders`: a triggered
limit order is filled at its limit price.  (An order created through
`create_limit_order` always carries a price; a price-less order never
reaches the comparison in the source, so it is left unchanged here.) -/
def checkLimitOrder (o : OMOrder) (currentPrice : ℚ) : OMOrder :=
  match o.orderType, o.price with
  | .limit, some p =>
      if (o.side = .buy ∧ currentPrice ≤ p) ∨ (o.side = .sell ∧ currentPrice ≥ p) then
        { o with status := .filled, filledQuantity := o.quantity, avgFillPrice := p }
      else o
  | _, _ => o

/-- One order's step of `OrderManager.check_stop_orders`: a triggered
stop/take-profit order is filled at the current price. -/
def checkStopOrder (o : OMOrder) (currentPrice : ℚ) : OMOrder :=
  let trigger : Bool :=
    match o.orderType, o.stopPrice, o.takeProfitPrice with
    | .stop, some sp, _ =>
        (o.side = .buy ∧ currentPrice ≥ sp) ∨ (o.side = .sell ∧ currentPrice ≤ sp)
    | .takeProfit, _, some tp =>
        (o.side = .buy ∧ currentPrice ≤ tp) ∨ (o.side = .sell ∧ currentPrice ≥ tp)
    | _, _, _ => false
  if trigger then
    { o with status := .filled, filledQuantity := o.quantity, avgFillPrice := currentPrice }
  else o

/-- The order manager's book: order id → order. -/
abbrev OMBook := List (String × OMOrder)

/-- `OrderManager.get_order` (dict lookup). -/
def OMBook.getOrder (b : OMBook) (orderId : String) : Option OMOrder :=
  (b.find? (fun kv => kv.1 = orderId)).map (·.2)

/-- Replace the stored order under `orderId`. -/
def OMBook.setOrder (b : OMBook) (orderId : String) (o : OMOrder) : OMBook :=
  b.map (fun kv => if kv.1 = orderId then (kv.1, o) else kv)

/-- `OrderManager.cancel_order`: succeeds only when the order exists and
its status is PENDING or OPEN; otherwise reports failure and leaves the
book unchanged. -/
def OMBook.cancelOrder (b : OMBook) (orderId : String) : Bool × OMBook :=
  match b.getOrder orderId with
  | some o =>
      if o.status = .pending ∨ o.status = .opened then
        (true, b.setOrder orderId { o with status := .cancelled })
      else (false, b)
  | none => (false, b)

/-! ## Execution engine (src/execution/execution_engine.py) -/

/-- The `ExecutionEngine`'s own position-tracking state. -/
structure EEState where
  commissionRate : ℚ
  slippageRate : ℚ
  positionSize : ℚ
  avgEntryPrice : ℚ
  realizedPnl : ℚ
  totalCommission : ℚ
  tradeCount : ℕ
deriving DecidableEq, Repr

/-- `ExecutionEngine._update_position_after_buy`. -/
def EEState.updateAfterBuy (st : EEState) (quantity price : ℚ) : EEState :=
  let totalCost := st.positionSize * st.avgEntryPrice + quantity * price
  let newSize := st.positionSize + quantity
  { st with positionSize := newSize
            avgEntryPrice := if newSize > 0 then totalCost / newSize else 0 }

/-- `ExecutionEngine._update_position_after_sell`. -/
def EEState.updateAfterSell (st : EEState) (quantity price : ℚ) : EEState :=
  let pnl := quantity * (price - st.avgEntryPrice)
  let commission := quantity * price * st.commissionRate
  let newSize := st.positionSize - quantity
  let st1 := { st with realizedPnl := st.realizedPnl + pnl - commission
                       totalCommission := st.totalCommission + commission
                       positionSize := newSize }
  if st1.positionSize ≤ 0 then { st1 with avgEntryPrice := 0, positionSize := 0 } else st1

/-- `ExecutionEngine.execute_buy`: create and execute a market buy, then
update the tracked position (the market-order execution always succeeds in
the source: its body is plain arithmetic). -/
def EEState.executeBuy (st : EEState) (quantity currentPrice : ℚ) : EEState :=
  let o := executeMarketOrder (createMarketOrder .buy quantity) currentPrice
             st.commissionRate st.slippageRate
  let st1 := st.updateAfterBuy o.quantity o.avgFillPrice
  { st1 with tradeCount := st1.tradeCount + 1 }

/-- `ExecutionEngine.execute_sell`: a sell larger than the held position is
clamped to the held amount; a clamped quantity ≤ 0 aborts without any
state change. -/
def EEState.executeSell (st : EEState) (quantity currentPrice : ℚ) : EEState :=
  let q := if st.positionSize < quantity then st.positionSize else quantity
  if q ≤ 0 then st
  else
    let o := executeMarketOrder (createMarketOrder .sell q) currentPrice
               st.commissionRate st.slippageRate
    let st1 := st.updateAfterSell o.quantity o.avgFillPrice
    { st1 with tradeCount := st1.tradeCount + 1 }

/-- A call to the execution engine: `execute_buy` or `execute_sell` with a
quantity and a market price. -/
inductive EEOp where
  | buy (quantity currentPrice : ℚ)
  | sell (quantity currentPrice : ℚ)
deriving DecidableEq, Repr

/-- Run a sequence of buy/sell calls against the engine. -/
def EEState.applyOps (st : EEState) (ops : List EEOp) : EEState :=
  ops.foldl (fun s op =>
    match op with
    | .buy q p => s.executeBuy q p
    | .sell q p => s.executeSell q p) st

/-! ## Realtime risk manager (src/risk/realtime_risk_manager.py)

The manager calls its position manager through `get_total_balance()`,
`get_position(symbol)` and `get_all_positions()`, and its data processor
through `get_latest_tick(symbol)`.  Neither interface is implemented under
src (the `src.data` package is absent and `utils/position_manager.py`
exposes a different, id-keyed interface), so the ledger/feed view is
modelled from the spec, see `RiskState`.

`ℚ` division totalizes Python's `ZeroDivisionError` corners (`x / 0 = 0`);
every theorem below stays on inputs where no division by zero occurs. -/

/-- `OrderSide` enum of the order state engine, as consumed by the risk
manager. -/
inductive OrderSideE where
  | buy
  | sell
deriving DecidableEq, Repr

/-- `RiskAction` enum. -/
inductive RiskAction where
  | allow
  | reduce
  | block
  | emergencyClose
  | pauseTrading
deriving DecidableEq, Repr

/-- `RiskCheckResult` dataclass (warnings/metadata carry no decision
content and are omitted). -/
structure RiskCheckResult where
  approved : Bool
  action : RiskAction
  reason : String
  maxPositionSize : ℚ := 0
  suggestedSize : ℚ := 0
  riskScore : ℚ := 0
deriving DecidableEq, Repr

/-- `DynamicRiskLimits` dataclass (numeric fields). -/
structure DynamicRiskLimits where
  maxPositionSize : ℚ
  maxDailyLoss : ℚ
  maxDrawdown : ℚ
  maxLeverage : ℚ
  maxCorrelation : ℚ
  volatilityMultiplier : ℚ := 1
  marketStressMultiplier : ℚ := 1
deriving DecidableEq, Repr

/-- `PortfolioRiskMetrics` dataclass. -/
structure PortfolioRiskMetrics where
  totalExposure : ℚ := 0
  netExposure : ℚ := 0
  grossExposure : ℚ := 0
  leverage : ℚ := 0
  var1d : ℚ := 0
  var5d : ℚ := 0
  expectedShortfall : ℚ := 0
  maxDrawdown : ℚ := 0
  currentDrawdown : ℚ := 0
  sharpe : ℚ := 0
  sortino : ℚ := 0
  correlationRisk : ℚ := 0
  concentrationRisk : ℚ := 0
  liquidityRisk : ℚ := 0
deriving DecidableEq, Repr

/-- A market-data tick (`TickData`), numeric fields. -/
structure TickData where
  price : ℚ
  bidPrice : ℚ := 0
  askPrice : ℚ := 0
  volume : ℚ := 0
deriving DecidableEq, Repr

/-- Modelled from the spec: the Position Ledger view the risk manager
reads through `get_position(symbol)` / `get_all_positions()` — per-symbol
signed size, volume-weighted entry price and current mark price. -/
structure PositionView where
  size : ℚ
  entryPrice : ℚ
  currentPrice : ℚ
deriving DecidableEq, Repr

/-- The `RealtimeRiskManager`'s state, together with the views it reads:
`totalBalance` is modelled from the spec (`GetTotalBalance()` = cash +
realized + unrealized PnL), `positions` from the spec's
`GetAllPositions()`, and `ticks` from the spec's market-data feed
(`get_latest_tick`).  Time is in seconds (`now`,
`correlationUpdateTime`). -/
structure RiskState where
  limits : DynamicRiskLimits
  totalBalance : ℚ
  positions : List (String × PositionView)
  todayRealizedPnl : ℚ
  metrics : PortfolioRiskMetrics := {}
  ticks : List (String × TickData) := []
  returnHistory : List (String × List ℚ) := []
  correlationMatrix : List ((String × String) × ℚ) := []
  correlationUpdateTime : Option ℚ := none
  now : ℚ := 0
  stressVix : ℚ := 0
  stressSpread : ℚ := 0
  stressVolume : ℚ := 0
  stressCorrelation : ℚ := 0
  totalRiskChecks : ℕ := 0
  blockedTrades : ℕ := 0
  reducedTrades : ℕ := 0
deriving DecidableEq, Repr

/-- Association-list lookup (Python dict `get`). -/
def lookupStr {α : Type} (l : List (String × α)) (k : String) : Option α :=
  (l.find? (fun kv => kv.1 = k)).map (·.2)

/-- `np.mean` over a rational list (callers guard non-emptiness; empty
gives 0 here). -/
def npMean (l : List ℚ) : ℚ := l.sum / l.length

/-- Population variance, the radicand of `np.std`. -/
def listVariance (l : List ℚ) : ℚ :=
  npMean (l.map (fun x => (x - npMean l) ^ 2))

/-- Insert into an ascending list. -/
def insertAsc (x : ℚ) : List ℚ → List ℚ
  | [] => [x]
  | y :: ys => if x ≤ y then x :: y :: ys else y :: insertAsc x ys

/-- Ascending sort (used by the percentile). -/
def sortAsc (l : List ℚ) : List ℚ := l.foldr insertAsc []

/-- `np.percentile` with the default linear interpolation. -/
def npPercentile (l : List ℚ) (q : ℚ) : ℚ :=
  let sorted := sortAsc l
  let n := sorted.length
  if n = 0 then 0
  else
    let rank := q * (n - 1) / 100
    let lower := rank.floor.toNat
    let frac := rank - rank.floor
    let a := sorted.getD lower 0
    let b := sorted.getD (lower + 1) a
    a + frac * (b - a)

/-- The last `n` elements of a list (Python `list(...)[-n:]`). -/
def lastN (n : ℕ) (l : List ℚ) : List ℚ := l.drop (l.length - n)

/-- All unordered pairs, first component earlier in the list (the Python
`for i, s1 in enumerate(symbols): for s2 in symbols[i+1:]` iteration). -/
def upperPairs {α : Type} : List α → List (α × α)
  | [] => []
  | x :: xs => xs.map (fun y => (x, y)) ++ upperPairs xs

/-- Python dict assignment on the correlation matrix: replace or append. -/
def setPair (m : List ((String × String) × ℚ)) (k : String × String) (v : ℚ) :
    List ((String × String) × ℚ) :=
  if m.any (fun kv => kv.1 = k) then m.map (fun kv => if kv.1 = k then (k, v) else kv)
  else m ++ [(k, v)]

/-- Correlation-matrix lookup with Python's `.get(key, 0.0)` default. -/
def getCorr (m : List ((String × String) × ℚ)) (k : String × String) : ℚ :=
  ((m.find? (fun kv => kv.1 = k)).map (·.2)).getD 0

/-- `RealtimeRiskManager._calculate_daily_pnl`: unrealized PnL of all
non-flat positions plus the base manager's realized PnL of the day. -/
def dailyPnl (st : RiskState) : ℚ :=
  (st.positions.map (fun kv =>
    if kv.2.size ≠ 0 then kv.2.size * (kv.2.currentPrice - kv.2.entryPrice) else 0)).sum
  + st.todayRealizedPnl

/-- `RealtimeRiskManager._calculate_current_drawdown`: the simplified
computation against an assumed peak of 1.1 × current balance (its
exception path returns 0 when the balance is 0). -/
def currentDrawdown (st : RiskState) : ℚ :=
  let peak := st.totalBalance * (11 / 10)
  if peak = 0 then 0
  else max ((peak - st.totalBalance) / peak) 0

/-- `RealtimeRiskManager._basic_risk_check`: account balance, single-trade
notional, daily loss and drawdown, in source order. -/
def basicRiskCheck (st : RiskState) (size price : ℚ) : RiskCheckResult :=
  let balance := st.totalBalance
  if balance ≤ 0 then
    { approved := false, action := .block, reason := "insufficient account balance", riskScore := 1 }
  else
    let tradeValue := size * price
    let maxTradeValue := balance * st.limits.maxPositionSize
    if tradeValue > maxTradeValue then
      { approved := false, action := .reduce, reason := "single trade value over limit"
        maxPositionSize := maxTradeValue / price, suggestedSize := maxTradeValue / price
        riskScore := 8 / 10 }
    else
      if dailyPnl st < -(balance * st.limits.maxDailyLoss) then
        { approved := false, action := .block, reason := "daily loss over limit", riskScore := 1 }
      else
        if currentDrawdown st > st.limits.maxDrawdown then
          { approved := false, action := .block, reason := "drawdown over limit", riskScore := 1 }
        else
          { approved := true, action := .allow, reason := "basic risk check passed"
            maxPositionSize := size, suggestedSize := size, riskScore := 1 / 10 }

/-- `RealtimeRiskManager._dynamic_position_check`. -/
def dynamicPositionCheck (st : RiskState) (symbol : String) (side : OrderSideE)
    (size price : ℚ) : RiskCheckResult :=
  let currentSize := ((lookupStr st.positions symbol).map (·.size)).getD 0
  let newSize := if side = .buy then currentSize + size else currentSize - size
  let accountValue := st.totalBalance
  let positionValue := |newSize * price|
  let positionFraction := positionValue / accountValue
  let maxSinglePosition := st.limits.maxPositionSize
  if positionFraction > maxSinglePosition then
    let maxPositionValue := accountValue * maxSinglePosition
    let maxSize := maxPositionValue / price
    if |currentSize| ≥ maxSize then
      { approved := false, action := .block, reason := "position already at limit"
        riskScore := 9 / 10 }
    else
      let s0 := maxSize - |currentSize|
      let suggested := if side = .sell then min s0 currentSize else s0
      { approved := true, action := .reduce, reason := "position over limit, reduce trade size"
        maxPositionSize := maxSize, suggestedSize := suggested, riskScore := 6 / 10 }
  else
    { approved := true, action := .allow, reason := "dynamic position check passed"
      maxPositionSize := size, suggestedSize := size, riskScore := 2 / 10 }

/-- `np.corrcoef(x, y)[0, 1]` over the float embedding: covariance divided
by the product of standard deviations; `none` models the NaN the source
filters with `np.isnan` (a zero denominator). -/
def corrcoefQ (sqrtQ : ℚ → ℚ) (xs ys : List ℚ) : Option ℚ :=
  let mx := npMean xs
  let my := npMean ys
  let cov := npMean (List.zipWith (fun a b => (a - mx) * (b - my)) xs ys)
  let denom := sqrtQ (listVariance xs) * sqrtQ (listVariance ys)
  if denom = 0 then none else some (cov / denom)

/-- `RealtimeRiskManager._update_correlation_matrix`: refresh at most
every 300 s, over all symbol pairs with at least 20 stored returns. -/
def updateCorrelationMatrix (sqrtQ : ℚ → ℚ) (st : RiskState) : RiskState :=
  let fresh : Bool :=
    match st.correlationUpdateTime with
    | some t => st.now - t < 300
    | none => false
  if fresh then st
  else
    let symbols := st.returnHistory.map (·.1)
    if symbols.length < 2 then st
    else
      let m := (upperPairs symbols).foldl (fun m kv =>
        let h1 := (lookupStr st.returnHistory kv.1).getD []
        let h2 := (lookupStr st.returnHistory kv.2).getD []
        if 20 ≤ h1.length ∧ 20 ≤ h2.length then
          match corrcoefQ sqrtQ (lastN 20 h1) (lastN 20 h2) with
          | some c => setPair (setPair m (kv.1, kv.2) c) (kv.2, kv.1) c
          | none => m
        else m) st.correlationMatrix
      { st with correlationMatrix := m, correlationUpdateTime := some st.now }

/-- `RealtimeRiskManager._calculate_var`: weighted recent returns of all
positions with enough history, 5th-percentile 1-day VaR, √5-scaled 5-day
VaR, and expected shortfall over the tail. -/
def calcVar (sqrtQ : ℚ → ℚ) (st : RiskState) (m : PortfolioRiskMetrics) :
    PortfolioRiskMetrics :=
  if st.positions = [] then m
  else
    let portfolioReturns := st.positions.foldl (fun acc kv =>
      let h := (lookupStr st.returnHistory kv.1).getD []
      if 20 ≤ h.length then
        let w := |kv.2.size * kv.2.currentPrice| / st.totalBalance
        acc ++ (lastN 20 h).map (fun r => r * w)
      else acc) []
    if 10 ≤ portfolioReturns.length then
      let var1dRaw := npPercentile portfolioReturns 5
      let m1 := { m with var1d := |var1dRaw|, var5d := |var1dRaw| * sqrtQ 5 }
      let tail := portfolioReturns.filter (fun r => r ≤ var1dRaw)
      if tail ≠ [] then { m1 with expectedShortfall := |npMean tail| } else m1
    else m

/-- `RealtimeRiskManager._calculate_concentration_risk`: normalized
Herfindahl index of position weights. -/
def concentrationRisk (positions : List (String × PositionView)) (balance : ℚ) : ℚ :=
  if positions = [] ∨ balance ≤ 0 then 0
  else
    let weights := positions.map (fun kv => |kv.2.size * kv.2.currentPrice| / balance)
    let herfindahl := (weights.map (fun w => w ^ 2)).sum
    let minConcentration : ℚ := 1 / weights.length
    if (1 : ℚ) > minConcentration then
      min ((herfindahl - minConcentration) / (1 - minConcentration)) 1
    else 0

/-- `RealtimeRiskManager._calculate_liquidity_risk`: spread-proxy risk per
position, weighted by position size. -/
def liquidityRisk (st : RiskState) : ℚ :=
  if st.positions = [] then 0
  else
    let acc := st.positions.foldl (fun (acc : ℚ × ℚ) kv =>
      match lookupStr st.ticks kv.1 with
      | none => acc
      | some tick =>
          let lr :=
            if tick.bidPrice > 0 ∧ tick.askPrice > 0 then
              min ((tick.askPrice - tick.bidPrice) / tick.price * 10) 1
            else 1 / 2
          let w := |kv.2.size * kv.2.currentPrice| / st.totalBalance
          (acc.1 + lr * w, acc.2 + w)) (0, 0)
    if acc.2 > 0 then acc.1 / acc.2 else 0

/-- `RealtimeRiskManager._calculate_correlation_risk`: mean absolute
pairwise correlation across held symbols (refreshing the matrix first);
0 with fewer than two positions. -/
def correlationRiskMetric (sqrtQ : ℚ → ℚ) (st : RiskState) : ℚ × RiskState :=
  if st.positions.length < 2 then (0, st)
  else
    let st1 := updateCorrelationMatrix sqrtQ st
    let pairs := upperPairs (st1.positions.map (·.1))
    let total := (pairs.map (fun kv => |getCorr st1.correlationMatrix kv|)).sum
    (if pairs.length > 0 then total / pairs.length else 0, st1)

/-- `RealtimeRiskManager._update_portfolio_metrics`: exposure, leverage,
VaR, concentration, liquidity and correlation metrics, recomputed from the
current positions. -/
def updatePortfolioMetrics (sqrtQ : ℚ → ℚ) (st : RiskState) : RiskState :=
  if st.positions = [] ∨ st.totalBalance ≤ 0 then st
  else
    let longExposure := (st.positions.map (fun kv =>
      if kv.2.size > 0 then kv.2.size * kv.2.currentPrice else 0)).sum
    let shortExposure := (st.positions.map (fun kv =>
      if kv.2.size < 0 then |kv.2.size * kv.2.currentPrice| else 0)).sum
    let m1 := { st.metrics with
      grossExposure := (longExposure + shortExposure) / st.totalBalance
      netExposure := (longExposure - shortExposure) / st.totalBalance
      leverage := (longExposure + shortExposure) / st.totalBalance }
    let m2 := calcVar sqrtQ st m1
    let m3 := { m2 with concentrationRisk := concentrationRisk st.positions st.totalBalance }
    let m4 := { m3 with liquidityRisk := liquidityRisk st }
    let cr := correlationRiskMetric sqrtQ st
    { cr.2 with metrics := { m4 with correlationRisk := cr.1 } }

/-- `RealtimeRiskManager._portfolio_risk_check`: refresh metrics, then
leverage / concentration / liquidity thresholds. -/
def portfolioRiskCheck (sqrtQ : ℚ → ℚ) (st : RiskState) (size : ℚ) :
    RiskCheckResult × RiskState :=
  let st1 := updatePortfolioMetrics sqrtQ st
  if st1.metrics.leverage > st1.limits.maxLeverage then
    ({ approved := false, action := .block, reason := "leverage over limit", riskScore := 9 / 10 },
     st1)
  else if st1.metrics.concentrationRisk > 8 / 10 then
    ({ approved := false, action := .reduce, reason := "concentration risk too high"
       suggestedSize := size * (1 / 2), riskScore := 7 / 10 }, st1)
  else if st1.metrics.liquidityRisk > 7 / 10 then
    ({ approved := false, action := .reduce, reason := "liquidity risk too high"
       suggestedSize := size * (7 / 10), riskScore := 6 / 10 }, st1)
  else
    ({ approved := true, action := .allow, reason := "portfolio risk check passed"
       maxPositionSize := size, suggestedSize := size, riskScore := 3 / 10 }, st1)

/-- `RealtimeRiskManager._calculate_volatility`: annualized standard
deviation of the last `window` returns (0 with insufficient history). -/
def calcVolatility (sqrtQ : ℚ → ℚ) (st : RiskState) (symbol : String) : ℚ :=
  match lookupStr st.returnHistory symbol with
  | none => 0
  | some h =>
      if h.length < 20 then 0
      else sqrtQ (listVariance (lastN 20 h)) * sqrtQ 252

/-- `RealtimeRiskManager._calculate_market_stress`: mean of the strictly
positive stress components, 0 if none is positive. -/
def calcMarketStress (st : RiskState) : ℚ :=
  let components := [st.stressVix, st.stressSpread, st.stressVolume, st.stressCorrelation]
  let positives := components.filter (fun s => s > 0)
  if positives ≠ [] then npMean positives else 0

/-- `RealtimeRiskManager._market_condition_check`: market data present,
volatility, bid/ask spread, composite stress. -/
def marketConditionCheck (sqrtQ : ℚ → ℚ) (st : RiskState) (symbol : String) (size : ℚ) :
    RiskCheckResult :=
  match lookupStr st.ticks symbol with
  | none =>
      { approved := false, action := .block, reason := "no market data", riskScore := 8 / 10 }
  | some tick =>
      let volatility := calcVolatility sqrtQ st symbol
      if volatility > 1 / 10 then
        { approved := true, action := .reduce, reason := "market volatility too high"
          suggestedSize := size * (1 - min volatility (1 / 2)), riskScore := 6 / 10 }
      else
        if tick.bidPrice > 0 ∧ tick.askPrice > 0 ∧
            (tick.askPrice - tick.bidPrice) / tick.price > 1 / 100 then
          { approved := true, action := .reduce, reason := "bid-ask spread too wide"
            suggestedSize := size * (8 / 10), riskScore := 5 / 10 }
        else
          let stressLevel := calcMarketStress st
          if stressLevel > 8 / 10 then
            { approved := false, action := .block, reason := "market stress too high"
              riskScore := 9 / 10 }
          else if stressLevel > 6 / 10 then
            { approved := true, action := .reduce, reason := "elevated market stress"
              suggestedSize := size * (6 / 10), riskScore := 6 / 10 }
          else
            { approved := true, action := .allow, reason := "market condition check passed"
              maxPositionSize := size, suggestedSize := size, riskScore := 2 / 10 }

/-- `RealtimeRiskManager._correlation_risk_check`: weighted correlation
risk against the other held symbols. -/
def correlationRiskCheck (sqrtQ : ℚ → ℚ) (st : RiskState) (symbol : String) (size : ℚ) :
    RiskCheckResult × RiskState :=
  let st1 := updateCorrelationMatrix sqrtQ st
  let total := st1.positions.foldl (fun (acc : ℚ) kv =>
    if kv.1 = symbol ∨ kv.2.size = 0 then acc
    else
      let c := getCorr st1.correlationMatrix (symbol, kv.1)
      if |c| > st1.limits.maxCorrelation then
        acc + |c| * (|kv.2.size * kv.2.currentPrice| / st1.totalBalance)
      else acc) 0
  if total > 1 / 2 then
    ({ approved := false, action := .reduce, reason := "correlation risk too high"
       suggestedSize := size * (1 - total), riskScore := 7 / 10 }, st1)
  else
    ({ approved := true, action := .allow, reason := "correlation risk check passed"
       maxPositionSize := size, suggestedSize := size, riskScore := 1 / 10 }, st1)

/-- `RealtimeRiskManager._calculate_risk_score` (its exception path — a
zero balance or zero limit — returns the default 0.5). -/
def riskScore (st : RiskState) (symbol : String) (size price : ℚ) : ℚ :=
  if st.totalBalance = 0 ∨ st.limits.maxPositionSize = 0 ∨ st.limits.maxLeverage = 0 then 1 / 2
  else
    let positionRisk := min (size * price / st.totalBalance / st.limits.maxPositionSize) 1
    let volRisk := min ((((lookupStr st.returnHistory symbol).getD []).length : ℚ) / 100) 1
    let stress := calcMarketStress st
    let portfolioRisk := min (st.metrics.leverage / st.limits.maxLeverage) 1
    npMean [positionRisk, volRisk, stress, portfolioRisk]

/-- `RealtimeRiskManager.check_trading_risk`: the five-stage battery with
its short-circuiting dispatch and the blocked/reduced counters. -/
def checkTradingRisk (sqrtQ : ℚ → ℚ) (st : RiskState) (symbol : String) (side : OrderSideE)
    (size price : ℚ) : RiskCheckResult × RiskState :=
  let st0 := { st with totalRiskChecks := st.totalRiskChecks + 1 }
  let base := basicRiskCheck st0 size price
  if base.action = .block then
    (base, { st0 with blockedTrades := st0.blockedTrades + 1 })
  else
    let posResult := dynamicPositionCheck st0 symbol side size price
    if posResult.action = .block then
      (posResult, { st0 with blockedTrades := st0.blockedTrades + 1 })
    else if posResult.action = .reduce then
      (posResult, { st0 with reducedTrades := st0.reducedTrades + 1 })
    else
      let port := portfolioRiskCheck sqrtQ st0 size
      if port.1.action = .block then
        (port.1, { port.2 with blockedTrades := port.2.blockedTrades + 1 })
      else if port.1.action = .reduce then
        (port.1, { port.2 with reducedTrades := port.2.reducedTrades + 1 })
      else
        let market := marketConditionCheck sqrtQ port.2 symbol size
        if market.action = .block then
          (market, { port.2 with blockedTrades := port.2.blockedTrades + 1 })
        else if market.action = .reduce then
          (market, { port.2 with reducedTrades := port.2.reducedTrades + 1 })
        else
          let corr := correlationRiskCheck sqrtQ port.2 symbol size
          if corr.1.action = .block then
            (corr.1, { corr.2 with blockedTrades := corr.2.blockedTrades + 1 })
          else if corr.1.action = .reduce then
            (corr.1, { corr.2 with reducedTrades := corr.2.reducedTrades + 1 })
          else
            ({ approved := true, action := .allow, reason := "all risk checks passed"
               maxPositionSize := size, suggestedSize := size
               riskScore := riskScore corr.2 symbol size price }, corr.2)

/-! ## Execution bridge (src/trading/strategy_execution_bridge.py) -/

/-- Modelled from the spec: the signal interface the bridge reads
(`signal.signal_type ∈ {BUY, SELL, HOLD}` and `signal.strength ∈ [-1, 1]`)
— the strategy package in src exposes a different enum, so the signal is
taken at the bridge's boundary as the spec describes it. -/
inductive SignalType where
  | buy
  | sell
  | hold
deriving DecidableEq, Repr

/-- A strategy signal as consumed by the bridge. -/
structure TradingSignalB where
  signalType : SignalType
  strength : ℚ
deriving DecidableEq, Repr

/-- `SignalExecutionRequest` (decision-relevant fields), with the
orderbook view `_calculate_entry_price` reads (best bid, best ask) from
the spec's market-data feed (the `src.data` package is absent). -/
structure SignalRequest where
  symbol : String
  signal : TradingSignalB
  currentPrice : ℚ
  positionSize : ℚ
  orderbook : Option (ℚ × ℚ) := none
deriving DecidableEq, Repr

/-- The configuration and ledger values the order-parameter pipeline
reads: `get_total_balance()` (spec-modelled ledger view) and the
`risk_per_trade` / `default_stop_loss` / `default_take_profit` options. -/
structure BridgeEnv where
  balance : ℚ
  riskPerTrade : ℚ := 1 / 50
  defaultStopLoss : ℚ := 1 / 50
  defaultTakeProfit : ℚ := 1 / 25
deriving DecidableEq, Repr

/-- A bounded queue (`asyncio.Queue(maxsize=...)`). -/
structure BoundedQueue where
  maxsize : ℕ
  items : List SignalRequest
deriving DecidableEq, Repr

/-- Outcome of an enqueue attempt on a bounded queue: item stored, caller
suspended until space frees (`await put` on a full queue), or a QueueFull
error (`put_nowait` on a full queue). -/
inductive PutOutcome where
  | enqueued (q : BoundedQueue)
  | waits
  | queueFull
deriving DecidableEq, Repr

/-- `asyncio.Queue.put`: enqueue when below capacity, otherwise suspend
the caller until a slot frees — it never raises QueueFull. -/
def queuePut (q : BoundedQueue) (r : SignalRequest) : PutOutcome :=
  if q.items.length < q.maxsize then .enqueued ⟨q.maxsize, q.items ++ [r]⟩ else .waits

/-- `asyncio.Queue.put_nowait`: enqueue when below capacity, otherwise
raise QueueFull.  This is the behavior the spec describes; the bridge does
NOT call it. -/
def queuePutNowait (q : BoundedQueue) (r : SignalRequest) : PutOutcome :=
  if q.items.length < q.maxsize then .enqueued ⟨q.maxsize, q.items ++ [r]⟩ else .queueFull

/-- The enqueue step of `StrategyExecutionBridge._on_signal_generated`
(`await self.signal_queue.put(request)`). -/
def submitSignal (q : BoundedQueue) (r : SignalRequest) : PutOutcome :=
  queuePut q r

/-- `StrategyExecutionBridge._calculate_position_size`: risk-budget size
capped by the risk check's `max_position_size` (the exception path — a
zero current price — returns 0). -/
def calcPositionSizeB (env : BridgeEnv) (req : SignalRequest)
    (riskResult : RiskCheckResult) : ℚ :=
  if req.currentPrice = 0 then 0
  else min (env.balance * env.riskPerTrade / req.currentPrice) riskResult.maxPositionSize

/-- `StrategyExecutionBridge._calculate_entry_price`. -/
def calcEntryPrice (req : SignalRequest) (side : OrderSideE) : ℚ :=
  match req.orderbook with
  | some ba =>
      if side = .buy then min (ba.2 * (1001 / 1000)) (req.currentPrice * (1002 / 1000))
      else max (ba.1 * (999 / 1000)) (req.currentPrice * (998 / 1000))
  | none => req.currentPrice

/-- `StrategyExecutionBridge._calculate_stop_levels`: (stop loss, take
profit). -/
def calcStopLevels (env : BridgeEnv) (side : OrderSideE) (entryPrice : ℚ) : ℚ × ℚ :=
  if side = .buy then
    (entryPrice * (1 - env.defaultStopLoss), entryPrice * (1 + env.defaultTakeProfit))
  else
    (entryPrice * (1 + env.defaultStopLoss), entryPrice * (1 - env.defaultTakeProfit))

/-- Order types produced by `_determine_order_type`. -/
inductive BOrderType where
  | market
  | limit
deriving DecidableEq, Repr

/-- `StrategyExecutionBridge._determine_order_type`: market for strong
signals, limit otherwise. -/
def determineOrderType (req : SignalRequest) : BOrderType :=
  if req.signal.strength > 8 / 10 then .market else .limit

/-- The order-parameter dictionary built by
`_calculate_order_parameters`. -/
structure OrderParams where
  side : OrderSideE
  size : ℚ
  price : ℚ
  stopLoss : ℚ
  takeProfit : ℚ
  orderType : BOrderType
deriving DecidableEq, Repr

/-- `StrategyExecutionBridge._calculate_order_parameters`: HOLD signals
and non-positive BASE sizes yield `none` (a rejection); otherwise the
base size is scaled by the signal strength, capped by the risk limit, and
packaged with prices and stop levels. -/
def calcOrderParameters (env : BridgeEnv) (req : SignalRequest)
    (riskResult : RiskCheckResult) : Option OrderParams :=
  let sideOpt : Option OrderSideE :=
    match req.signal.signalType with
    | .buy => some .buy
    | .sell => some .sell
    | .hold => none
  match sideOpt with
  | none => none
  | some side =>
      let baseSize := calcPositionSizeB env req riskResult
      if baseSize ≤ 0 then none
      else
        let adjustedSize := baseSize * min req.signal.strength 1
        let finalSize := min adjustedSize riskResult.maxPositionSize
        let entryPrice := calcEntryPrice req side
        let levels := calcStopLevels env side entryPrice
        some { side := side, size := finalSize, price := entryPrice
               stopLoss := levels.1, takeProfit := levels.2
               orderType := determineOrderType req }

/-- The main order built by `_generate_orders` (price only for limit
orders). -/
structure BridgeOrder where
  side : OrderSideE
  orderType : BOrderType
  size : ℚ
  price : Option ℚ
deriving DecidableEq, Repr

/-- `StrategyExecutionBridge._generate_orders`: always a single main
order. -/
def generateOrders (params : OrderParams) : List BridgeOrder :=
  [{ side := params.side, orderType := params.orderType, size := params.size
     price := if params.orderType = .limit then some params.price else none }]

/-- Outcome of `_process_signal_execution`: rejection with a reason, or
orders handed to `_execute_orders` (which submits each to the execution
engine via `place_order`). -/
inductive ExecOutcome where
  | rejected (reason : String)
  | submitted (orders : List BridgeOrder)
deriving DecidableEq, Repr

/-- `StrategyExecutionBridge._process_signal_execution`, stages 1–4: an
unapproved risk result or missing order parameters short-circuit to a
rejection; otherwise the generated orders (always one) are submitted. -/
def processSignalExecution (env : BridgeEnv) (req : SignalRequest)
    (riskResult : RiskCheckResult) : ExecOutcome :=
  if ¬ riskResult.approved then .rejected riskResult.reason
  else
    match calcOrderParameters env req riskResult with
    | none => .rejected "cannot compute order parameters"
    | some params => .submitted (generateOrders params)

/-! ## Theorems -/

/-- The dynamic limits used by the concrete risk scenarios: exactly the
source defaults (`max_position_size` 0.1, `max_daily_loss` 0.05,
`max_drawdown` 0.2, `max_leverage` 3, `max_correlation` 0.7). -/
def defaultLimits : DynamicRiskLimits :=
  { maxPositionSize := 1 / 10, maxDailyLoss := 1 / 20, maxDrawdown := 1 / 5
    maxLeverage := 3, maxCorrelation := 7 / 10 }

/-- Scenario A state: balance 10,000, no open positions, flat day. -/
def scenarioAState : RiskState :=
  { limits := defaultLimits, totalBalance := 10000, positions := [], todayRealizedPnl := 0 }

/-- C1: with balance 10,000, `max_position_size` 0.1 and price 100, a
requested size of 20 (trade value 2,000 > max order value 1,000) is
answered by the basic risk check with action=reduce and
suggested_size = 1,000 / 100 = 10. -/
theorem c1_scenario_a_basic_check_reduces :
    (basicRiskCheck scenarioAState 20 100).approved = false ∧
    (basicRiskCheck scenarioAState 20 100).action = RiskAction.reduce ∧
    (basicRiskCheck scenarioAState 20 100).suggestedSize = 10 := by
  norm_num [basicRiskCheck, scenarioAState, defaultLimits, dailyPnl, currentDrawdown]

/-- C4: `close_position` updates realized PnL and size but never
recomputes the stored unrealized PnL: a long position of size 2 opened at
100 and marked at 110 carries unrealized PnL 20; after closing half at
110 the stored unrealized PnL is still 20 while the pure recomputation
from (size, entry, mark, side) gives (110 - 100) * 1 = 10. -/
theorem c4_close_position_leaves_unrealized_pnl_stale :
    (((Position.mk0 .long 2 100 100).updatePrice 110).unrealizedPnl = 20) ∧
    ((((Position.mk0 .long 2 100 100).updatePrice 110).closePosition 110 (some 1)).size = 1) ∧
    ((((Position.mk0 .long 2 100 100).updatePrice 110).closePosition 110 (some 1)).unrealizedPnl
      = 20) ∧
    ((((Position.mk0 .long 2 100 100).updatePrice 110).closePosition 110
        (some 1)).calcUnrealizedPnl = 10) := by
  norm_num [Position.mk0, Position.updatePrice, Position.closePosition,
    Position.calcUnrealizedPnl]

/-- C5 counterexample: the order state engine's `update_status` applies
caller-supplied field values without validation, so a status update
carrying `filled_quantity = 2` on an order of requested quantity 1 leaves
the book with filled quantity 2 > 1. -/
theorem c5_counterexample_update_status_overfills :
    (({ quantity := 1 : OrderE}).updateStatus .filled (some 2)).filledQuantity = 2 ∧
    ¬ ((({ quantity := 1 : OrderE}).updateStatus .filled (some 2)).filledQuantity ≤
        (({ quantity := 1 : OrderE}).updateStatus .filled (some 2)).quantity) := by
  norm_num [OrderE.updateStatus]

/-- The fill invariant `0 ≤ filled_size ≤ requested_size` on an order
manager order. -/
def omInvariant (o : OMOrder) : Prop :=
  0 ≤ o.filledQuantity ∧ o.filledQuantity ≤ o.quantity

/-- C5 amended: order creation with a non-negative quantity establishes
`0 ≤ filled ≤ requested`, and every order-manager operation — market
execution, limit/stop triggering, cancellation (which only touches the
status) — preserves it; the engine-level `update_status` does not
validate it, see the counterexample. -/
theorem c5_amended_order_manager_invariant :
    (∀ side q, 0 ≤ q → omInvariant (createMarketOrder side q)) ∧
    (∀ side q p, 0 ≤ q → omInvariant (createLimitOrder side q p)) ∧
    (∀ o p c s, omInvariant o → omInvariant (executeMarketOrder o p c s)) ∧
    (∀ o p, omInvariant o → omInvariant (checkLimitOrder o p)) ∧
    (∀ o p, omInvariant o → omInvariant (checkStopOrder o p)) ∧
    (∀ (o : OMOrder), omInvariant o → omInvariant { o with status := OMStatus.cancelled }) := by
  refine ⟨?_, ?_, ?_, ?_, ?_, ?_⟩
  · intro side q hq
    exact ⟨le_refl 0, hq⟩
  · intro side q p hq
    exact ⟨le_refl 0, hq⟩
  · intro o p c s h
    exact ⟨h.1.trans h.2, le_refl _⟩
  · intro o p h
    simp only [checkLimitOrder]
    repeat' split
    all_goals first
      | exact ⟨h.1.trans h.2, le_refl _⟩
      | exact h
  · intro o p h
    simp only [checkStopOrder]
    repeat' split
    all_goals first
      | exact ⟨h.1.trans h.2, le_refl _⟩
      | exact h
  · intro o h
    exact h

/-- C5 amended witness: the invariant concretely holds after creating a
buy order of quantity 1 and executing it at price 100. -/
theorem c5_amended_order_manager_invariant_witness :
    omInvariant (createMarketOrder .buy 1) ∧
    omInvariant (executeMarketOrder (createMarketOrder .buy 1) 100 (1 / 1000) (1 / 2000)) := by
  refine ⟨c5_amended_order_manager_invariant.1 .buy 1 (by norm_num), ?_⟩
  exact c5_amended_order_manager_invariant.2.2.1 _ 100 (1 / 1000) (1 / 2000)
    (c5_amended_order_manager_invariant.1 .buy 1 (by norm_num))

/-- C6: a market order executed at quoted price `p` with slippage rate
`s` fills at `p + p*s` (buy) or `p - p*s` (sell), and the recorded
commission equals filled quantity × fill price × commission rate. -/
theorem c6_market_order_slippage_and_fee (o : OMOrder) (p c s : ℚ) :
    ((executeMarketOrder o p c s).avgFillPrice =
      if o.side = .buy then p + p * s else p - p * s) ∧
    (executeMarketOrder o p c s).commission =
      (executeMarketOrder o p c s).filledQuantity *
        (executeMarketOrder o p c s).avgFillPrice * c := by
  unfold executeMarketOrder
  split <;> exact ⟨rfl, rfl⟩

/-- `is_active` unfolded to the three cancellable statuses. -/
theorem isActive_iff (o : OrderE) :
    o.isActive = true ↔
      (o.status = .pending ∨ o.status = .submitted ∨ o.status = .partiallyFilled) := by
  cases hs : o.status <;> simp [OrderE.isActive, hs]

/-- A partially filled order as stored by the order manager. -/
def c7Order : OMOrder :=
  { orderType := .limit, side := .buy, quantity := 1, price := some 100
    status := .partiallyFilled, filledQuantity := 1 / 2 }

/-- C7 counterexample: the order manager refuses to cancel an existing
order in status PartiallyFilled (its cancellable statuses are PENDING and
OPEN only), while the claim requires the cancellation to succeed. -/
theorem c7_counterexample_partially_filled_not_cancellable :
    (OMBook.getOrder [("o1", c7Order)] "o1") = some c7Order ∧
    c7Order.status = OMStatus.partiallyFilled ∧
    (OMBook.cancelOrder [("o1", c7Order)] "o1").1 = false := by
  refine ⟨by simp [OMBook.getOrder], rfl, ?_⟩
  simp [OMBook.cancelOrder, OMBook.getOrder, c7Order]

/-- C7 amended: on the order state engine, cancel succeeds iff the order
exists in status Pending/Submitted/PartiallyFilled; on the order manager,
cancel succeeds iff the order exists in status Pending/Open; in every
failure case the book is left unchanged. -/
theorem c7_amended_cancel_semantics :
    (∀ (e : OrderEngine) orderId,
      (e.cancelOrder orderId).1 = true ↔
        ∃ o, e.getOrder orderId = some o ∧
          (o.status = .pending ∨ o.status = .submitted ∨ o.status = .partiallyFilled)) ∧
    (∀ (e : OrderEngine) orderId,
      (e.cancelOrder orderId).1 = false → (e.cancelOrder orderId).2 = e) ∧
    (∀ (b : OMBook) orderId,
      (b.cancelOrder orderId).1 = true ↔
        ∃ o, b.getOrder orderId = some o ∧ (o.status = .pending ∨ o.status = .opened)) ∧
    (∀ (b : OMBook) orderId,
      (b.cancelOrder orderId).1 = false → (b.cancelOrder orderId).2 = b) := by
  refine ⟨?_, ?_, ?_, ?_⟩
  · intro e orderId
    rcases h : e.getOrder orderId with _ | o
    · simp [OrderEngine.cancelOrder, h]
    · by_cases ha : o.isActive
      · simp only [OrderEngine.cancelOrder, h, ha, if_pos]
        constructor
        · intro _
          exact ⟨o, rfl, (isActive_iff o).mp ha⟩
        · intro _
          trivial
      · simp only [OrderEngine.cancelOrder, h, ha, if_neg, Bool.false_eq_true]
        constructor
        · intro hcon
          exact absurd hcon (by simp)
        · rintro ⟨o2, ho2, hst⟩
          rw [Option.some_inj] at ho2
          exact absurd ((isActive_iff o).mpr (ho2 ▸ hst)) ha
  · intro e orderId
    rcases h : e.getOrder orderId with _ | o
    · simp [OrderEngine.cancelOrder, h]
    · by_cases ha : o.isActive <;> simp [OrderEngine.cancelOrder, h, ha]
  · intro b orderId
    rcases h : b.getOrder orderId with _ | o
    · simp [OMBook.cancelOrder, h]
    · by_cases hs : o.status = .pending ∨ o.status = .opened
      · simp only [OMBook.cancelOrder, h, if_pos hs]
        constructor
        · intro _
          exact ⟨o, rfl, hs⟩
        · intro _
          trivial
      · simp only [OMBook.cancelOrder, h, if_neg hs, Bool.false_eq_true]
        constructor
        · intro hcon
          exact absurd hcon (by simp)
        · rintro ⟨o2, ho2, hst⟩
          rw [Option.some_inj] at ho2
          exact absurd (ho2 ▸ hst) hs
  · intro b orderId
    rcases h : b.getOrder orderId with _ | o
    · simp [OMBook.cancelOrder, h]
    · by_cases hs : o.status = .pending ∨ o.status = .opened <;>
        simp [OMBook.cancelOrder, h, hs]

/-- C7 amended witness: a failed engine cancel on an empty book and the
failed manager cancel on the partially filled order both leave the book
unchanged. -/
theorem c7_amended_cancel_semantics_witness :
    (OrderEngine.cancelOrder [] "x").2 = ([] : OrderEngine) ∧
    (OMBook.cancelOrder [("o1", c7Order)] "o1").2 = [("o1", c7Order)] := by
  constructor
  · exact c7_amended_cancel_semantics.2.1 [] "x" (by simp [OrderEngine.cancelOrder,
      OrderEngine.getOrder])
  · exact c7_amended_cancel_semantics.2.2.2 [("o1", c7Order)] "o1"
      (by simp [OMBook.cancelOrder, OMBook.getOrder, c7Order])

/-- C8 (fill application modelled from the spec, see `OrderE.applyFill`):
two fills of 0.5 at prices p1, p2 against a pending order of requested
size 1 leave the order Filled with filled quantity 1 and average price
equal to the volume-weighted mean of the two fill prices; in general a
fill sets the status to Filled exactly when the accumulated filled size
equals the requested size, else PartiallyFilled. -/
theorem c8_two_half_fills_vwap (p1 p2 f1 f2 : ℚ) :
    ((({ quantity := 1 : OrderE }).applyFill (1 / 2) p1 f1).status
        = OrderStatusE.partiallyFilled) ∧
    (((({ quantity := 1 : OrderE }).applyFill (1 / 2) p1 f1).applyFill (1 / 2) p2 f2).status
        = OrderStatusE.filled) ∧
    (((({ quantity := 1 : OrderE }).applyFill (1 / 2) p1 f1).applyFill (1 / 2) p2
        f2).filledQuantity = 1) ∧
    (((({ quantity := 1 : OrderE }).applyFill (1 / 2) p1 f1).applyFill (1 / 2) p2
        f2).averagePrice = some ((1 / 2 * p1 + 1 / 2 * p2) / (1 / 2 + 1 / 2))) ∧
    (∀ (o : OrderE) fs fp fee, (o.applyFill fs fp fee).status =
        if o.filledQuantity + fs = o.quantity then OrderStatusE.filled
        else OrderStatusE.partiallyFilled) := by
  refine ⟨?_, ?_, ?_, ?_, ?_⟩
  · norm_num [OrderE.applyFill]
  · norm_num [OrderE.applyFill]
  · norm_num [OrderE.applyFill]
  · norm_num [OrderE.applyFill]
  · intro o fs fp fee
    rfl

/-- The signal request sitting in the saturated queue. -/
def c3Req : SignalRequest :=
  { symbol := "BTC-USDT", signal := { signalType := .buy, strength := 1 / 2 }
    currentPrice := 100, positionSize := 0 }

/-- A queue of capacity 1 already holding one request. -/
def c3FullQueue : BoundedQueue := { maxsize := 1, items := [c3Req] }

/-- C3 counterexample: on a saturated queue the bridge's submit path
(`await signal_queue.put`) suspends the caller (`waits`); it does not
return the QueueFull condition the claim requires. -/
theorem c3_counterexample_full_queue_waits :
    submitSignal c3FullQueue c3Req = PutOutcome.waits ∧
    submitSignal c3FullQueue c3Req ≠ PutOutcome.queueFull := by
  constructor
  · simp [submitSignal, queuePut, c3FullQueue]
  · simp [submitSignal, queuePut, c3FullQueue]

/-- C3 amended: on a queue at (or beyond) capacity, the bridge's enqueue
path always suspends the submitter until space frees; it never produces a
QueueFull error (that would be `put_nowait`, which the bridge does not
call). -/
theorem c3_amended_full_queue_always_waits (q : BoundedQueue) (r : SignalRequest)
    (h : q.maxsize ≤ q.items.length) : submitSignal q r = PutOutcome.waits := by
  unfold submitSignal queuePut
  rw [if_neg (not_lt.mpr h)]

/-- C3 amended witness: the concrete saturated queue suspends. -/
theorem c3_amended_full_queue_always_waits_witness :
    submitSignal c3FullQueue c3Req = PutOutcome.waits :=
  c3_amended_full_queue_always_waits c3FullQueue c3Req (by simp [c3FullQueue])

/-- Environment of the C9 scenario: balance 100, risk-per-trade 2 %. -/
def c9Env : BridgeEnv := { balance := 100 }

/-- A BUY signal of strength 0 at price 1. -/
def c9Req : SignalRequest :=
  { symbol := "BTC-USDT", signal := { signalType := .buy, strength := 0 }
    currentPrice := 1, positionSize := 0 }

/-- An approving risk result with max position size 2. -/
def c9Risk : RiskCheckResult :=
  { approved := true, action := .allow, reason := "ok", maxPositionSize := 2
    suggestedSize := 2 }

/-- C9 counterexample: with base size 2 > 0 but signal strength 0, the
strength-adjusted final size is 0 ≤ 0, yet the pipeline still packages
the parameters and submits an order of size 0 — the ≤ 0 guard only runs
before the strength adjustment. -/
theorem c9_counterexample_zero_size_submitted :
    calcOrderParameters c9Env c9Req c9Risk =
      some { side := .buy, size := 0, price := 1, stopLoss := 49 / 50
             takeProfit := 26 / 25, orderType := .limit } ∧
    processSignalExecution c9Env c9Req c9Risk =
      ExecOutcome.submitted [{ side := .buy, orderType := .limit, size := 0
                               price := some 1 }] := by
  constructor
  · norm_num [calcOrderParameters, calcPositionSizeB, calcEntryPrice, calcStopLevels,
      determineOrderType, c9Env, c9Req, c9Risk]
  · norm_num [processSignalExecution, calcOrderParameters, calcPositionSizeB,
      calcEntryPrice, calcStopLevels, determineOrderType, generateOrders, c9Env, c9Req,
      c9Risk]

/-- C9 amended: whenever the BASE computed size — after the risk cap but
before the signal-strength adjustment — is ≤ 0, the pipeline rejects the
request before order generation and never submits; (a final size ≤ 0
caused by a non-positive signal strength is not re-checked, see the
counterexample). -/
theorem c9_amended_nonpositive_base_size_never_submitted (env : BridgeEnv)
    (req : SignalRequest) (riskResult : RiskCheckResult)
    (h : calcPositionSizeB env req riskResult ≤ 0) (orders : List BridgeOrder) :
    processSignalExecution env req riskResult ≠ ExecOutcome.submitted orders := by
  unfold processSignalExecution
  by_cases happ : riskResult.approved
  · cases hst : req.signal.signalType <;>
      simp [happ, hst, calcOrderParameters, if_pos h]
  · simp [happ]

/-- A risk result whose max position size is 0, zeroing the base size. -/
def c9wRisk : RiskCheckResult :=
  { approved := true, action := .allow, reason := "ok", maxPositionSize := 0
    suggestedSize := 0 }

/-- C9 amended witness: with max position size 0 the base size is 0 and
nothing is submitted. -/
theorem c9_amended_nonpositive_base_size_never_submitted_witness :
    processSignalExecution c9Env c9Req c9wRisk ≠ ExecOutcome.submitted [] :=
  c9_amended_nonpositive_base_size_never_submitted c9Env c9Req c9wRisk
    (by norm_num [calcPositionSizeB, c9Env, c9Req, c9wRisk]) []

/-- A buy preserves non-negativity of the tracked position when the bought
quantity is non-negative. -/
theorem executeBuy_positionSize (st : EEState) (q p : ℚ) :
    (st.executeBuy q p).positionSize = st.positionSize + q := rfl

/-- A sell never drives the tracked position negative: oversized sells are
clamped to the held amount and the remainder is floored at zero. -/
theorem executeSell_nonneg (st : EEState) (q p : ℚ) (h0 : 0 ≤ st.positionSize) :
    0 ≤ (st.executeSell q p).positionSize := by
  unfold EEState.executeSell EEState.updateAfterSell executeMarketOrder createMarketOrder
  dsimp only
  repeat' split
  all_goals try dsimp only
  all_goals first
    | exact h0
    | linarith

/-- C10: starting from a non-negative tracked position, any sequence of
`execute_buy` (with non-negative quantities) and `execute_sell` calls
keeps `position_size ≥ 0`: oversized sells are clamped to the held
amount. -/
theorem c10_position_size_never_negative (st : EEState) (ops : List EEOp)
    (h0 : 0 ≤ st.positionSize) (hbuy : ∀ q p, EEOp.buy q p ∈ ops → 0 ≤ q) :
    0 ≤ (st.applyOps ops).positionSize := by
  induction ops generalizing st with
  | nil => exact h0
  | cons op rest ih =>
      rcases op with ⟨q, p⟩ | ⟨q, p⟩
      · have hq : 0 ≤ q := hbuy q p (List.mem_cons_self _ _)
        have hstep : 0 ≤ (st.executeBuy q p).positionSize := by
          rw [executeBuy_positionSize]
          exact add_nonneg h0 hq
        have := ih (st.executeBuy q p) hstep
          (fun q2 p2 hm => hbuy q2 p2 (List.mem_cons_of_mem _ hm))
        simpa [EEState.applyOps] using this
      · have hstep := executeSell_nonneg st q p h0
        have := ih (st.executeSell q p) hstep
          (fun q2 p2 hm => hbuy q2 p2 (List.mem_cons_of_mem _ hm))
        simpa [EEState.applyOps] using this

/-- The execution engine's initial state (commission 0.1 %, slippage
0.05 %). -/
def eeInit : EEState :=
  { commissionRate := 1 / 1000, slippageRate := 1 / 2000, positionSize := 0
    avgEntryPrice := 0, realizedPnl := 0, totalCommission := 0, tradeCount := 0 }

/-- C10 witness: buying 1 and then trying to sell 2 leaves a non-negative
position. -/
theorem c10_position_size_never_negative_witness :
    0 ≤ (eeInit.applyOps [EEOp.buy 1 100, EEOp.sell 2 90]).positionSize :=
  c10_position_size_never_negative eeInit [EEOp.buy 1 100, EEOp.sell 2 90]
    (by norm_num [eeInit])
    (by
      intro q p h
      simp only [List.mem_cons, List.not_mem_nil, or_false] at h
      rcases h with h1 | h2
      · rw [(EEOp.buy.injEq _ _ _ _).mp h1 |>.1]
        norm_num
      · exact absurd h2 (by simp))

/-- Scenario C state: balance 10,000, no open positions, 1,000 already
lost today (beyond the 0.05 × 10,000 = 500 daily-loss limit). -/
def c2State : RiskState :=
  { limits := defaultLimits, totalBalance := 10000, positions := [], todayRealizedPnl := -1000 }

/-- C2 counterexample: with the daily PnL below −max_daily_loss × balance,
a request of size 20 at price 100 (trade value 2,000 over the 1,000
single-trade limit) is answered with action=reduce, not block: the basic
check's single-trade reduce result is discarded by `check_trading_risk`
(which only propagates a basic-check block), the daily-loss check is never
reached, and the reduce actually returned comes from the dynamic position
stage. -/
theorem c2_counterexample_oversized_request_not_blocked :
    dailyPnl c2State < -(c2State.totalBalance * c2State.limits.maxDailyLoss) ∧
    (checkTradingRisk (fun _ => 0) c2State "BTC-USDT" .buy 20 100).1.action
      = RiskAction.reduce ∧
    (checkTradingRisk (fun _ => 0) c2State "BTC-USDT" .buy 20 100).1.action
      ≠ RiskAction.block := by
  have hne : RiskAction.reduce ≠ RiskAction.block := by decide
  have hbs : OrderSideE.buy ≠ OrderSideE.sell := by decide
  refine ⟨by norm_num [dailyPnl, c2State, defaultLimits], ?_, ?_⟩ <;>
    norm_num [checkTradingRisk, basicRiskCheck, dynamicPositionCheck, dailyPnl,
      currentDrawdown, lookupStr, c2State, defaultLimits, max_def, abs_of_nonneg, hne, hbs]

/-- C2 amended: whenever the daily realized-plus-unrealized PnL is below
−max_daily_loss × balance, the next `check_trading_risk` call returns
action=block for every request whose trade value stays within the
single-trade limit (size × price ≤ balance × max_position_size, balance
positive).  For a request over that limit the daily-loss check is never
reached and the outcome is decided by the later stages, so a block is not
guaranteed — at the counterexample state the call returns reduce. -/
theorem c2_amended_daily_loss_blocks_within_trade_limit (sqrtQ : ℚ → ℚ) (st : RiskState)
    (symbol : String) (side : OrderSideE) (size price : ℚ)
    (hbal : 0 < st.totalBalance)
    (hsize : size * price ≤ st.totalBalance * st.limits.maxPositionSize)
    (hloss : dailyPnl st < -(st.totalBalance * st.limits.maxDailyLoss)) :
    (checkTradingRisk sqrtQ st symbol side size price).1.action = RiskAction.block ∧
    (checkTradingRisk sqrtQ st symbol side size price).1.approved = false := by
  have hd : dailyPnl { st with totalRiskChecks := st.totalRiskChecks + 1 } = dailyPnl st := rfl
  have hb : basicRiskCheck { st with totalRiskChecks := st.totalRiskChecks + 1 } size price
      = { approved := false, action := .block, reason := "daily loss over limit"
          riskScore := 1 } := by
    simp only [basicRiskCheck, hd]
    rw [if_neg (not_le.mpr hbal), if_neg (not_lt.mpr hsize), if_pos hloss]
  simp only [checkTradingRisk]
  rw [hb]
  simp

/-- C2 amended witness: in the scenario C state a request of size 1 at
price 100 (trade value 100 ≤ 1,000) is blocked. -/
theorem c2_amended_daily_loss_blocks_within_trade_limit_witness :
    (checkTradingRisk (fun _ => 0) c2State "BTC-USDT" .buy 1 100).1.action
      = RiskAction.block :=
  (c2_amended_daily_loss_blocks_within_trade_limit (fun _ => 0) c2State "BTC-USDT" .buy 1 100
    (by norm_num [c2State])
    (by norm_num [c2State, defaultLimits])
    (by norm_num [dailyPnl, c2State, defaultLimits])).1

end Qokx
